import Mathlib

/-!
Verification of the routing / message-pipe core of the repository.

The development shallowly embeds `RoutedRawChannel`
(mojo/edk/system/routed_raw_channel.cc) as a pure state-transition system:
each C++ method becomes a Lean function from the channel state (and the
method's arguments) to the new state together with the list of externally
observable events it performs (dispatcher callbacks, wire writes, transport
shutdown, scheduled or inline destruction, NOTREACHED logging).  The local
`MessagePipe` endpoint (whose implementation is exercised by
mojo/system/message_pipe unit tests) is embedded from the specification's
description of its operations.
-/

namespace Spec2Proof

/-- Little-endian byte encoding of a natural number into `k` bytes,
mirroring `memcpy` of a `uint64_t` on a little-endian platform. -/
def toLE : Nat → Nat → List Nat
  | 0, _ => []
  | k + 1, n => n % 256 :: toLE k (n / 256)

/-- Little-endian byte decoding, mirroring reading a `uint64_t` from a
byte buffer on a little-endian platform. -/
def fromLE : List Nat → Nat
  | [] => 0
  | b :: bs => b + 256 * fromLE bs

namespace edk

/-- Route id 0 is reserved for the channel's own control messages
(`kInternalRoutingId` in routed_raw_channel.cc). -/
def kInternalRoutingId : Nat := 0

/-- The single internal opcode (`InternalMessages::ROUTE_CLOSED`). -/
def ROUTE_CLOSED : Nat := 0

/-- `RawChannel::Delegate::Error` values relevant to the routing layer. -/
inductive ChError where
  | readShutdown
  | readBroken
  | readBadMessage
  | writeError
deriving DecidableEq, Repr

/-- One transport frame as seen by `RoutedRawChannel`: the routing tag
(`MessageInTransit::View::route_id()`) and the payload bytes
(`bytes()` / `num_bytes()`).  Byte values are naturals below 256. -/
structure Frame where
  route_id : Nat
  payload : List Nat
deriving DecidableEq, Repr

/-- Externally observable actions of a `RoutedRawChannel` method.
Dispatchers (`MessagePipeDispatcher*`) are identified by naturals. -/
inductive Event where
  | dispatchRead (d : Nat) (f : Frame)
  | dispatchError (d : Nat) (e : ChError)
  | wireWrite (f : Frame)
  | shutdownTransport
  | deleteSoon
  | deleteInline
  | notReached
deriving DecidableEq, Repr

/-- State of a `RoutedRawChannel`: the `routes_` map (association list
`pipe_id -> dispatcher`), the `pending_messages_` buffer in arrival order,
the `close_routes_` set, and whether `channel_` is non-null. -/
structure Channel where
  routes : List (Nat × Nat)
  pending_messages : List Frame
  close_routes : List Nat
  channel_alive : Bool
deriving DecidableEq, Repr

/-- `routes_.find(pipe_id)` on the association list. -/
def findRoute : List (Nat × Nat) → Nat → Option Nat
  | [], _ => none
  | (k, v) :: rest, p => if k = p then some v else findRoute rest p

/-- `routes_.erase(pipe_id)`. -/
def eraseRoute : List (Nat × Nat) → Nat → List (Nat × Nat)
  | [], _ => []
  | (k, v) :: rest, p =>
    if k = p then eraseRoute rest p else (k, v) :: eraseRoute rest p

/-- `close_routes_.erase(pipe_id)`. -/
def eraseClosed : List Nat → Nat → List Nat
  | [], _ => []
  | x :: rest, p => if x = p then eraseClosed rest p else x :: eraseClosed rest p

/-- The drain loop of `AddRoute`: walk `pending_messages_` front to back;
a message whose `route_id` matches is delivered to the new dispatcher and
erased, any other message is kept (index only advances in that case). -/
def drain (pipe_id pipe : Nat) : List Frame → List Event × List Frame
  | [] => ([], [])
  | f :: rest =>
    let r := drain pipe_id pipe rest
    if f.route_id = pipe_id then (Event.dispatchRead pipe f :: r.1, r.2)
    else (r.1, f :: r.2)

/-- `RoutedRawChannel::AddRoute`.  The two `CHECK`s (reserved id, id not
already bound) abort the process; they are modelled as `none`. -/
def Channel.AddRoute (ch : Channel) (pipe_id pipe : Nat) :
    Option (Channel × List Event) :=
  if pipe_id = kInternalRoutingId then none
  else if (findRoute ch.routes pipe_id).isSome then none
  else
    let dr := drain pipe_id pipe ch.pending_messages
    let evs := dr.1 ++
      (if pipe_id ∈ ch.close_routes then
        [Event.dispatchError pipe ChError.readShutdown]
      else [])
    some ({ ch with routes := (pipe_id, pipe) :: ch.routes,
                    pending_messages := dr.2 }, evs)

/-- The internal control frame built by `RemoveRoute`: route id 0, payload
`[ROUTE_CLOSED] ++ little-endian-u64(pipe_id)`. -/
def routeClosedFrame (pipe_id : Nat) : Frame :=
  ⟨kInternalRoutingId, ROUTE_CLOSED :: toLE 8 pipe_id⟩

/-- `RoutedRawChannel::RemoveRoute`.  The `CHECK`s (route bound, bound to
this very dispatcher) are modelled as `none`.  If the peer's ROUTE_CLOSED
was already received the entry is merely erased from `close_routes_`;
otherwise, if the transport is alive, a ROUTE_CLOSED frame is written.
If the transport is down and `routes_` became empty, destruction is
scheduled via `DeleteSoon`. -/
def Channel.RemoveRoute (ch : Channel) (pipe_id pipe : Nat) :
    Option (Channel × List Event) :=
  match findRoute ch.routes pipe_id with
  | none => none
  | some d =>
    if d ≠ pipe then none
    else
      let routes2 := eraseRoute ch.routes pipe_id
      let step :=
        if pipe_id ∈ ch.close_routes then
          (eraseClosed ch.close_routes pipe_id, ([] : List Event))
        else if ch.channel_alive then
          (ch.close_routes, [Event.wireWrite (routeClosedFrame pipe_id)])
        else (ch.close_routes, ([] : List Event))
      let evs2 :=
        if ch.channel_alive = false ∧ routes2 = [] then [Event.deleteSoon]
        else []
      some ({ ch with routes := routes2, close_routes := step.1 },
            step.2 ++ evs2)

/-- `RoutedRawChannel::OnReadMessage`.  Control frames (route 0) are
validated (length `1 + 8`, opcode `ROUTE_CLOSED`, no duplicate close for
the same pipe); violations log `NOTREACHED` and drop the frame.  Data
frames are forwarded to the bound dispatcher, or buffered at the back of
`pending_messages_` when the route is not yet bound. -/
def Channel.OnReadMessage (ch : Channel) (msg : Frame) : Channel × List Event :=
  if msg.route_id = kInternalRoutingId then
    if msg.payload.length ≠ 9 then (ch, [Event.notReached])
    else if msg.payload.head? ≠ some ROUTE_CLOSED then (ch, [Event.notReached])
    else
      let closed_route := fromLE (msg.payload.drop 1)
      if closed_route ∈ ch.close_routes then (ch, [Event.notReached])
      else
        let ch2 := { ch with close_routes := closed_route :: ch.close_routes }
        match findRoute ch.routes closed_route with
        | none => (ch2, [])
        | some d => (ch2, [Event.dispatchError d ChError.readShutdown])
  else
    match findRoute ch.routes msg.route_id with
    | some d => (ch, [Event.dispatchRead d msg])
    | none => ({ ch with pending_messages := ch.pending_messages ++ [msg] }, [])

/-- `RoutedRawChannel::OnError`: shut the transport down first; if no
routes are bound, destruct inline (`delete this`), otherwise forward the
error to every bound dispatcher. -/
def Channel.OnError (ch : Channel) (e : ChError) : Channel × List Event :=
  let ch2 := { ch with channel_alive := false }
  if ch.routes = [] then
    (ch2, [Event.shutdownTransport, Event.deleteInline])
  else
    (ch2, Event.shutdownTransport ::
      ch.routes.map (fun r => Event.dispatchError r.2 e))

/-- Feeding a sequence of inbound frames through `OnReadMessage`,
keeping only the resulting state. -/
def processAll (ch : Channel) (fs : List Frame) : Channel :=
  fs.foldl (fun c f => (c.OnReadMessage f).1) ch

end edk

namespace mojoSys

/-- Result codes of the local MessagePipe API (`MojoResult`). -/
inductive MojoResult where
  | ok
  | cancelled
  | invalidArgument
  | deadlineExceeded
  | notFound
  | alreadyExists
  | failedPrecondition
  | resourceExhausted
deriving DecidableEq, Repr

/-- A queued in-process message: its payload bytes. -/
structure Msg where
  data : List Nat
deriving DecidableEq, Repr

/-- A recorded waiter: the wait flags (READABLE / WRITABLE) and the
client context value. -/
structure Waiter where
  readable : Bool
  writable : Bool
  context : Nat
deriving DecidableEq, Repr

/-- Modelled from the spec: per-port state of the local MessagePipe
(`incoming: FIFO<Msg>`, `peer_closed`, `self_closed`, `waiters`); the
MessagePipe implementation itself is not among the sources, only its
unit tests are. -/
structure Port where
  incoming : List Msg
  peer_closed : Bool
  self_closed : Bool
  waiters : List Waiter
deriving DecidableEq, Repr

/-- Modelled from the spec: a MessagePipe is two ports (indices 0, 1). -/
structure MessagePipe where
  port0 : Port
  port1 : Port
deriving DecidableEq, Repr

/-- The implementation maximum for a message's payload size. -/
def kMaxMessageNumBytes : Nat := 4194304

/-- The implementation maximum for a message's attached-handle count. -/
def kMaxMessageNumHandles : Nat := 10000

def MessagePipe.port (mp : MessagePipe) (i : Nat) : Port :=
  if i = 0 then mp.port0 else mp.port1

def MessagePipe.setPort (mp : MessagePipe) (i : Nat) (p : Port) : MessagePipe :=
  if i = 0 then { mp with port0 := p } else { mp with port1 := p }

/-- The index of the other port. -/
def peerOf (i : Nat) : Nat := if i = 0 then 1 else 0

/-- A freshly created pipe: both ports open with empty queues. -/
def MessagePipe.init : MessagePipe :=
  ⟨⟨[], false, false, []⟩, ⟨[], false, false, []⟩⟩

/-- Modelled from the spec: `WriteMessage(port, bytes, handles, flags)`
(implementation not among the sources).  It fails `FAILED_PRECONDITION`
if the peer port is closed, `INVALID_ARGUMENT` for null bytes with
nonzero length or null handles with nonzero count, and
`RESOURCE_EXHAUSTED` for a payload size or handle count exceeding the
implementation maximum; on success the message is appended to the peer
port's incoming queue.  `bytes`/`handles` are `none` for null pointers. -/
def MessagePipe.WriteMessage (mp : MessagePipe) (i : Nat)
    (bytes : Option (List Nat)) (num_bytes : Nat)
    (handles : Option (List Nat)) (num_handles : Nat) :
    MojoResult × MessagePipe :=
  if (mp.port i).peer_closed then (.failedPrecondition, mp)
  else if bytes.isNone ∧ num_bytes ≠ 0 then (.invalidArgument, mp)
  else if num_bytes > kMaxMessageNumBytes then (.resourceExhausted, mp)
  else if handles.isNone ∧ num_handles ≠ 0 then (.invalidArgument, mp)
  else if num_handles > kMaxMessageNumHandles then (.resourceExhausted, mp)
  else
    let dst := peerOf i
    let q := mp.port dst
    (.ok, mp.setPort dst
      { q with incoming := q.incoming ++ [⟨(bytes.getD []).take num_bytes⟩] })

/-- Outcome of `ReadMessage`: the result code, the updated pipe, the
value written through the `buffer_size` out-pointer (`none` when nothing
was written or the pointer was null), and the message copied into the
caller's buffer on success. -/
structure ReadResult where
  result : MojoResult
  pipe : MessagePipe
  buffer_size_out : Option Nat
  delivered : Option Msg
deriving DecidableEq, Repr

/-- Modelled from the spec: `ReadMessage(port, buffer, buffer_size,
handle_count, flags)` (implementation not among the sources).  A null
buffer with nonzero `*buffer_size`, or null handles with nonzero
`*handle_count`, is `INVALID_ARGUMENT`.  An empty queue is `NOT_FOUND`
(`FAILED_PRECONDITION` once the peer is closed).  A too-small buffer is
`RESOURCE_EXHAUSTED`, reporting the head message's size, discarding the
head only under `MAY_DISCARD`; otherwise the head is dequeued and
delivered with `OK`.  `buffer_size = none` models a null out-pointer
(capacity 0, nothing written back). -/
def MessagePipe.ReadMessage (mp : MessagePipe) (i : Nat)
    (buffer_null : Bool) (buffer_size : Option Nat)
    (handles_null : Bool) (handle_count : Option Nat)
    (may_discard : Bool) : ReadResult :=
  if buffer_null ∧ buffer_size.getD 0 ≠ 0 then
    ⟨.invalidArgument, mp, none, none⟩
  else if handles_null ∧ handle_count.getD 0 ≠ 0 then
    ⟨.invalidArgument, mp, none, none⟩
  else
    let p := mp.port i
    match p.incoming with
    | [] =>
      if p.peer_closed then ⟨.failedPrecondition, mp, none, none⟩
      else ⟨.notFound, mp, none, none⟩
    | m :: rest =>
      let s := m.data.length
      if s ≤ buffer_size.getD 0 then
        ⟨.ok, mp.setPort i { p with incoming := rest },
         buffer_size.map (fun _ => s), some m⟩
      else if may_discard then
        ⟨.resourceExhausted, mp.setPort i { p with incoming := rest },
         buffer_size.map (fun _ => s), none⟩
      else
        ⟨.resourceExhausted, mp, buffer_size.map (fun _ => s), none⟩

/-- Modelled from the spec: `Close(port)` sets `self_closed`, drops the
port's own queue and waiters, and marks the peer port's `peer_closed`. -/
def MessagePipe.Close (mp : MessagePipe) (i : Nat) : MessagePipe :=
  let p := mp.port i
  let mp1 := mp.setPort i
    { p with self_closed := true, incoming := [], waiters := [] }
  let q := mp1.port (peerOf i)
  mp1.setPort (peerOf i) { q with peer_closed := true }

/-- Modelled from the spec: `AddWaiter(port, w, flags, ctx)` returns
`ALREADY_EXISTS` if a requested flag is already satisfied (writable
while the peer is open, readable while the queue is nonempty),
`FAILED_PRECONDITION` if no requested flag can ever be satisfied, and
otherwise `OK`, recording the waiter. -/
def MessagePipe.AddWaiter (mp : MessagePipe) (i : Nat)
    (readable writable : Bool) (ctx : Nat) : MojoResult × MessagePipe :=
  let p := mp.port i
  let satisfied := (writable && !p.peer_closed) ||
    (readable && !p.incoming.isEmpty)
  let satisfiable := (writable && !p.peer_closed) ||
    (readable && (!p.incoming.isEmpty || !p.peer_closed))
  if satisfied then (.alreadyExists, mp)
  else if satisfiable then
    (.ok, mp.setPort i
      { p with waiters := p.waiters ++ [⟨readable, writable, ctx⟩] })
  else (.failedPrecondition, mp)

end mojoSys

theorem toLE_length (k n : Nat) : (toLE k n).length = k := by
  induction k generalizing n with
  | zero => rfl
  | succ k ih => simp [toLE, ih]

theorem fromLE_toLE (k n : Nat) : fromLE (toLE k n) = n % 256 ^ k := by
  induction k generalizing n with
  | zero => simp [toLE, fromLE, Nat.mod_one]
  | succ k ih =>
    simp only [toLE, fromLE, ih]
    rw [pow_succ', Nat.mod_mul]

namespace edk

/-! ### Characterization of the AddRoute drain loop -/

theorem drain_fst (p d : Nat) (l : List Frame) :
    (drain p d l).1
      = (l.filter (fun f => f.route_id == p)).map (Event.dispatchRead d) := by
  induction l with
  | nil => rfl
  | cons f rest ih =>
    by_cases h : f.route_id = p
    · simp [drain, h, ih]
    · simp [drain, h, ih]

theorem drain_snd (p d : Nat) (l : List Frame) :
    (drain p d l).2 = l.filter (fun f => f.route_id != p) := by
  induction l with
  | nil => rfl
  | cons f rest ih =>
    by_cases h : f.route_id = p
    · simp [drain, h, ih]
    · simp [drain, h, ih]

theorem AddRoute_some (ch : Channel) (p d : Nat)
    (hp : p ≠ 0) (hb : findRoute ch.routes p = none) :
    ch.AddRoute p d = some
      ({ ch with routes := (p, d) :: ch.routes,
                 pending_messages :=
                   ch.pending_messages.filter (fun f => f.route_id != p) },
       (ch.pending_messages.filter (fun f => f.route_id == p)).map
           (Event.dispatchRead d) ++
         (if p ∈ ch.close_routes then
            [Event.dispatchError d ChError.readShutdown] else [])) := by
  simp [Channel.AddRoute, kInternalRoutingId, hp, hb, drain_fst, drain_snd]

/-! ### Inbound processing lemmas -/

theorem processAll_nil (ch : Channel) : processAll ch [] = ch := rfl

theorem processAll_cons (ch : Channel) (f : Frame) (fs : List Frame) :
    processAll ch (f :: fs) = processAll (ch.OnReadMessage f).1 fs := rfl

theorem onRead_data_unbound (ch : Channel) (f : Frame)
    (h0 : f.route_id ≠ 0) (hb : findRoute ch.routes f.route_id = none) :
    ch.OnReadMessage f
      = ({ ch with pending_messages := ch.pending_messages ++ [f] }, []) := by
  simp [Channel.OnReadMessage, kInternalRoutingId, h0, hb]

theorem onRead_data_unbound_fst (ch : Channel) (f : Frame)
    (h0 : f.route_id ≠ 0) (hb : findRoute ch.routes f.route_id = none) :
    (ch.OnReadMessage f).1
      = { ch with pending_messages := ch.pending_messages ++ [f] } := by
  rw [onRead_data_unbound ch f h0 hb]

theorem processAll_all_unbound (ch : Channel) (fs : List Frame)
    (h : ∀ f ∈ fs, f.route_id ≠ 0 ∧ findRoute ch.routes f.route_id = none) :
    processAll ch fs
      = { ch with pending_messages := ch.pending_messages ++ fs } := by
  induction fs generalizing ch with
  | nil => simp [processAll_nil]
  | cons f fs ih =>
    obtain ⟨h0, hb⟩ := h f (List.mem_cons_self f fs)
    rw [processAll_cons, onRead_data_unbound_fst ch f h0 hb,
        ih { ch with pending_messages := ch.pending_messages ++ [f] }
          (fun g hg => h g (List.mem_cons_of_mem f hg))]
    simp

theorem onRead_routeClosed_unbound (ch : Channel) (q : Nat)
    (hq : q < 2 ^ 64) (hc : q ∉ ch.close_routes)
    (hb : findRoute ch.routes q = none) :
    ch.OnReadMessage (routeClosedFrame q)
      = ({ ch with close_routes := q :: ch.close_routes }, []) := by
  have hpow : (2 : Nat) ^ 64 = 18446744073709551616 := by norm_num
  have hmod : q % 18446744073709551616 = q := Nat.mod_eq_of_lt (hpow ▸ hq)
  simp [Channel.OnReadMessage, routeClosedFrame, kInternalRoutingId,
        ROUTE_CLOSED, toLE_length, fromLE_toLE, hmod, hc, hb]

theorem onRead_routeClosed_unbound_fst (ch : Channel) (q : Nat)
    (hq : q < 2 ^ 64) (hc : q ∉ ch.close_routes)
    (hb : findRoute ch.routes q = none) :
    (ch.OnReadMessage (routeClosedFrame q)).1
      = { ch with close_routes := q :: ch.close_routes } := by
  rw [onRead_routeClosed_unbound ch q hq hc hb]

/-! ### Claim theorems -/

/-- C10: when `AddRoute(p, d)` drains the pending-message buffer, it
removes exactly those pending messages whose `route_id` equals `p`; every
pending message of any other route stays, and the relative FIFO order of
the remaining pending messages is unchanged (the survivors are the
order-preserving filter of the original buffer). -/
theorem C10_addRoute_drains_exactly_matching_pending
    (ch : Channel) (p d : Nat) (ch2 : Channel) (evs : List Event)
    (h : ch.AddRoute p d = some (ch2, evs)) :
    ch2.pending_messages
      = ch.pending_messages.filter (fun f => f.route_id != p) := by
  by_cases hp : p = 0
  · simp [Channel.AddRoute, kInternalRoutingId, hp] at h
  · by_cases hb : findRoute ch.routes p = none
    · rw [AddRoute_some ch p d hp hb] at h
      obtain ⟨h1, _⟩ := Prod.mk.injEq .. ▸ Option.some.injEq .. ▸ h
      rw [← h1]
    · simp [Channel.AddRoute, kInternalRoutingId, hp,
            Option.isSome_iff_ne_none.mpr hb] at h

/-- Witness for C10 at a concrete channel: buffered frames for routes
7, 5, 7; binding route 7 leaves exactly the route-5 frame pending. -/
theorem C10_witness :
    Channel.AddRoute ⟨[], [⟨7, [1]⟩, ⟨5, [2]⟩, ⟨7, [3]⟩], [], true⟩ 7 4
      = some (⟨[(7, 4)], [⟨5, [2]⟩], [], true⟩,
              [Event.dispatchRead 4 ⟨7, [1]⟩, Event.dispatchRead 4 ⟨7, [3]⟩]) ∧
    (⟨[(7, 4)], [⟨5, [2]⟩], [], true⟩ : Channel).pending_messages
      = List.filter (fun f => f.route_id != 7)
          [⟨7, [1]⟩, ⟨5, [2]⟩, ⟨7, [3]⟩] :=
  ⟨by decide,
   C10_addRoute_drains_exactly_matching_pending
     ⟨[], [⟨7, [1]⟩, ⟨5, [2]⟩, ⟨7, [3]⟩], [], true⟩ 7 4
     ⟨[(7, 4)], [⟨5, [2]⟩], [], true⟩
     [Event.dispatchRead 4 ⟨7, [1]⟩, Event.dispatchRead 4 ⟨7, [3]⟩]
     (by decide)⟩

/-- C1: for a pipe id `p ≠ 0`, when `AddRoute(p, d)` is called after
frames for route `p` (and possibly a ROUTE_CLOSED for `p`) have been
received and buffered, dispatcher `d` observes `OnReadMessage` of exactly
the buffered frames for `p` in original FIFO arrival order, and — exactly
when a ROUTE_CLOSED for `p` had been received — one `OnError(READ_SHUTDOWN)`
strictly after all of the buffered data messages. -/
theorem C1_bind_after_buffering_replays_fifo_then_shutdown
    (ch : Channel) (p d : Nat) (fs : List Frame)
    (hp : p ≠ 0) (hlt : p < 2 ^ 64)
    (hb : findRoute ch.routes p = none)
    (hc : p ∉ ch.close_routes)
    (hpend : ∀ f ∈ ch.pending_messages, f.route_id ≠ p)
    (hfs : ∀ f ∈ fs, f.route_id ≠ 0 ∧ findRoute ch.routes f.route_id = none) :
    (((processAll ch fs).AddRoute p d).map Prod.snd
        = some ((fs.filter (fun f => f.route_id == p)).map
            (Event.dispatchRead d))) ∧
    ((((processAll ch fs).OnReadMessage (routeClosedFrame p)).1.AddRoute
          p d).map Prod.snd
        = some ((fs.filter (fun f => f.route_id == p)).map
              (Event.dispatchRead d) ++
            [Event.dispatchError d ChError.readShutdown])) := by
  have hfold := processAll_all_unbound ch fs hfs
  have hfilt : ch.pending_messages.filter (fun f => f.route_id == p) = [] := by
    rw [List.filter_eq_nil_iff]
    intro f hf
    simpa using hpend f hf
  constructor
  · rw [hfold,
        AddRoute_some { ch with pending_messages := ch.pending_messages ++ fs }
          p d hp hb]
    simp [List.filter_append, hfilt, hc]
  · rw [hfold,
        onRead_routeClosed_unbound_fst
          { ch with pending_messages := ch.pending_messages ++ fs }
          p hlt hc hb,
        AddRoute_some
          { ch with pending_messages := ch.pending_messages ++ fs,
                    close_routes := p :: ch.close_routes }
          p d hp hb]
    simp [List.filter_append, hfilt]

/-- Witness for C1: fresh channel, route 7, frames for routes 7, 7, 5. -/
theorem C1_witness :
    ((7 : Nat) ≠ 0 ∧ (7 : Nat) < 2 ^ 64) ∧
    ((Channel.AddRoute
          (processAll ⟨[], [], [], true⟩ [⟨7, [10]⟩, ⟨7, [20]⟩, ⟨5, [30]⟩])
          7 1).map Prod.snd
        = some (([⟨7, [10]⟩, ⟨7, [20]⟩, ⟨5, [30]⟩].filter
              (fun f => f.route_id == 7)).map (Event.dispatchRead 1))) ∧
    ((Channel.AddRoute
          ((Channel.OnReadMessage
              (processAll ⟨[], [], [], true⟩ [⟨7, [10]⟩, ⟨7, [20]⟩, ⟨5, [30]⟩])
              (routeClosedFrame 7)).1) 7 1).map Prod.snd
        = some (([⟨7, [10]⟩, ⟨7, [20]⟩, ⟨5, [30]⟩].filter
              (fun f => f.route_id == 7)).map (Event.dispatchRead 1) ++
            [Event.dispatchError 1 ChError.readShutdown])) :=
  ⟨⟨by decide, by decide⟩,
   C1_bind_after_buffering_replays_fifo_then_shutdown
     ⟨[], [], [], true⟩ 7 1 [⟨7, [10]⟩, ⟨7, [20]⟩, ⟨5, [30]⟩]
     (by decide) (by decide) (by decide) (by decide) (by decide) (by decide)⟩

/-! ### RemoveRoute characterization -/

theorem RemoveRoute_some (ch : Channel) (p d : Nat)
    (h : findRoute ch.routes p = some d) :
    ch.RemoveRoute p d = some
      ({ ch with routes := eraseRoute ch.routes p,
                 close_routes :=
                   if p ∈ ch.close_routes then eraseClosed ch.close_routes p
                   else ch.close_routes },
       (if p ∈ ch.close_routes then []
        else if ch.channel_alive then [Event.wireWrite (routeClosedFrame p)]
        else []) ++
       (if ch.channel_alive = false ∧ eraseRoute ch.routes p = [] then
          [Event.deleteSoon] else [])) := by
  cases ha : ch.channel_alive <;>
    by_cases hc : p ∈ ch.close_routes <;>
      simp [Channel.RemoveRoute, h, hc, ha]

theorem RemoveRoute_inv (ch : Channel) (p d : Nat) (ch2 : Channel)
    (evs : List Event)
    (h : ch.RemoveRoute p d = some (ch2, evs)) :
    findRoute ch.routes p = some d ∧
    ch2 = { ch with routes := eraseRoute ch.routes p,
                    close_routes :=
                      if p ∈ ch.close_routes then
                        eraseClosed ch.close_routes p
                      else ch.close_routes } ∧
    evs = (if p ∈ ch.close_routes then []
           else if ch.channel_alive then
             [Event.wireWrite (routeClosedFrame p)]
           else []) ++
          (if ch.channel_alive = false ∧ eraseRoute ch.routes p = [] then
             [Event.deleteSoon] else []) := by
  cases hf : findRoute ch.routes p with
  | none => simp [Channel.RemoveRoute, hf] at h
  | some d0 =>
    by_cases hd : d0 = d
    · subst hd
      rw [RemoveRoute_some ch p d0 hf] at h
      simp only [Option.some.injEq, Prod.mk.injEq] at h
      exact ⟨rfl, h.1.symm, h.2.symm⟩
    · simp [Channel.RemoveRoute, hf, hd] at h

/-- Malformed control frames (wrong length, unknown opcode, duplicate
ROUTE_CLOSED) are logged via `NOTREACHED` and dropped; the state is
unchanged. -/
theorem onRead_malformed (ch : Channel) (msg : Frame)
    (h0 : msg.route_id = 0)
    (hbad : msg.payload.length ≠ 9 ∨ msg.payload.head? ≠ some ROUTE_CLOSED ∨
            fromLE (msg.payload.drop 1) ∈ ch.close_routes) :
    ch.OnReadMessage msg = (ch, [Event.notReached]) := by
  by_cases hl : msg.payload.length = 9
  · by_cases hh : msg.payload.head? = some ROUTE_CLOSED
    · have hdup : fromLE (msg.payload.drop 1) ∈ ch.close_routes := by
        rcases hbad with h | h | h
        · exact absurd hl h
        · exact absurd hh h
        · exact h
      have hdup2 : fromLE msg.payload.tail ∈ ch.close_routes := by
        simpa [List.drop_one] using hdup
      simp [Channel.OnReadMessage, kInternalRoutingId, h0, hl, hh, hdup2]
    · simp [Channel.OnReadMessage, kInternalRoutingId, h0, hl, hh]
  · simp [Channel.OnReadMessage, kInternalRoutingId, h0, hl]

/-- C2: at most one ROUTE_CLOSED is ever sent for a pipe, and none is
processed twice: `RemoveRoute(p)` writes a ROUTE_CLOSED frame if and only
if `p` is not recorded in `close_routes_` and the transport is alive; if
`p` is recorded, it merely erases it and sends nothing; and an inbound
ROUTE_CLOSED for a pipe already in `close_routes_` is dropped without any
dispatcher callback. -/
theorem C2_route_closed_sent_iff_not_already_closed :
    (∀ (ch : Channel) (p d : Nat) (ch2 : Channel) (evs : List Event),
      Channel.RemoveRoute ch p d = some (ch2, evs) →
      ((∃ f, Event.wireWrite f ∈ evs) ↔
        (p ∉ ch.close_routes ∧ ch.channel_alive = true))) ∧
    (∀ (ch : Channel) (p d : Nat) (ch2 : Channel) (evs : List Event),
      Channel.RemoveRoute ch p d = some (ch2, evs) →
      p ∈ ch.close_routes →
      ch2.close_routes = eraseClosed ch.close_routes p ∧
        ∀ f, Event.wireWrite f ∉ evs) ∧
    (∀ (ch : Channel) (q : Nat), q < 2 ^ 64 → q ∈ ch.close_routes →
      ch.OnReadMessage (routeClosedFrame q) = (ch, [Event.notReached])) := by
  refine ⟨?_, ?_, ?_⟩
  · intro ch p d ch2 evs h
    obtain ⟨hf, hch2, hevs⟩ := RemoveRoute_inv ch p d ch2 evs h
    subst hevs
    cases ha : ch.channel_alive <;>
      by_cases hc : p ∈ ch.close_routes <;>
        simp [ha, hc] <;> split <;> simp
  · intro ch p d ch2 evs h hc
    obtain ⟨hf, hch2, hevs⟩ := RemoveRoute_inv ch p d ch2 evs h
    subst hevs hch2
    refine ⟨by simp [hc], ?_⟩
    intro f
    cases ha : ch.channel_alive <;> simp [ha, hc] <;> split <;> simp
  · intro ch q hlt hq
    refine onRead_malformed ch (routeClosedFrame q) rfl (Or.inr (Or.inr ?_))
    have hpow : (2 : Nat) ^ 64 = 18446744073709551616 := by norm_num
    have hmod : q % 18446744073709551616 = q := Nat.mod_eq_of_lt (hpow ▸ hlt)
    simpa [routeClosedFrame, fromLE_toLE, hmod] using hq


/-- Witness for C2: removing a live, not-yet-closed route 7 writes a
ROUTE_CLOSED frame; a duplicate inbound ROUTE_CLOSED for route 9 is
dropped with only a NOTREACHED log. -/
theorem C2_witness :
    (∃ f, Event.wireWrite f ∈ [Event.wireWrite (routeClosedFrame 7)]) ∧
    Channel.OnReadMessage ⟨[], [], [9], true⟩ (routeClosedFrame 9)
      = (⟨[], [], [9], true⟩, [Event.notReached]) :=
  ⟨(C2_route_closed_sent_iff_not_already_closed.1
      ⟨[(7, 1)], [], [], true⟩ 7 1 ⟨[], [], [], true⟩
      [Event.wireWrite (routeClosedFrame 7)] (by decide)).mpr
      ⟨by decide, rfl⟩,
   C2_route_closed_sent_iff_not_already_closed.2.2
     ⟨[], [], [9], true⟩ 9 (by decide) (by decide)⟩

/-- C3 counterexample: a malformed control frame (1-byte payload on
route 0) received by a live channel with a bound route is dropped, but
the channel is NOT torn down: the transport stays alive and no shutdown
or destruction event is emitted, contrary to the claim that the
violation is fatal for the channel. -/
theorem C3_counterexample :
    ¬ ((Channel.OnReadMessage ⟨[(3, 5)], [], [], true⟩
          ⟨0, [0]⟩).1.channel_alive = false ∨
       Event.shutdownTransport ∈
         (Channel.OnReadMessage ⟨[(3, 5)], [], [], true⟩ ⟨0, [0]⟩).2 ∨
       Event.deleteInline ∈
         (Channel.OnReadMessage ⟨[(3, 5)], [], [], true⟩ ⟨0, [0]⟩).2 ∨
       Event.deleteSoon ∈
         (Channel.OnReadMessage ⟨[(3, 5)], [], [], true⟩ ⟨0, [0]⟩).2) := by
  decide

/-- C3 (amended): for every inbound control frame (route 0) that is
malformed — payload length different from 1+8 bytes, unknown opcode byte,
or a duplicate ROUTE_CLOSED for a pipe already in `close_routes_` — the
channel logs (NOTREACHED) and drops the frame without delivering it to
any dispatcher; the channel is NOT torn down: its state is completely
unchanged and it keeps operating. -/
theorem C3_malformed_control_frame_logged_and_dropped
    (ch : Channel) (msg : Frame) (h0 : msg.route_id = 0)
    (hbad : msg.payload.length ≠ 9 ∨
            msg.payload.head? ≠ some ROUTE_CLOSED ∨
            fromLE (msg.payload.drop 1) ∈ ch.close_routes) :
    ch.OnReadMessage msg = (ch, [Event.notReached]) :=
  onRead_malformed ch msg h0 hbad

/-- Witness for C3 (amended) at the 1-byte control frame. -/
theorem C3_witness :
    Channel.OnReadMessage ⟨[], [], [], true⟩ ⟨0, [0]⟩
      = (⟨[], [], [], true⟩, [Event.notReached]) :=
  C3_malformed_control_frame_logged_and_dropped ⟨[], [], [], true⟩ ⟨0, [0]⟩
    rfl (Or.inl (by decide))

/-- C4: the ROUTE_CLOSED frame sent by `RemoveRoute` goes to route 0 with
a 1+8-byte payload: opcode byte 0 followed by the pipe id, little-endian;
an inbound control frame smaller than this minimum is discarded with no
delegate callback, and a subsequent frame is processed exactly as if the
short frame had never arrived. -/
theorem C4_route_closed_frame_layout_and_min_size :
    (∀ (ch : Channel) (p d : Nat) (ch2 : Channel) (evs : List Event),
      Channel.RemoveRoute ch p d = some (ch2, evs) →
      p ∉ ch.close_routes → ch.channel_alive = true →
      (Event.wireWrite (routeClosedFrame p) ∈ evs ∧
       (routeClosedFrame p).route_id = 0 ∧
       (routeClosedFrame p).payload.length = 9 ∧
       (routeClosedFrame p).payload.head? = some ROUTE_CLOSED ∧
       (p < 2 ^ 64 → fromLE ((routeClosedFrame p).payload.drop 1) = p))) ∧
    (∀ (ch : Channel) (bad good : Frame),
      bad.route_id = 0 → bad.payload.length < 9 →
      Channel.OnReadMessage ch bad = (ch, [Event.notReached]) ∧
      Channel.OnReadMessage (Channel.OnReadMessage ch bad).1 good
        = Channel.OnReadMessage ch good) := by
  constructor
  · intro ch p d ch2 evs h hc ha
    obtain ⟨hf, hch2, hevs⟩ := RemoveRoute_inv ch p d ch2 evs h
    subst hevs
    refine ⟨by simp [hc, ha], rfl,
            by simp [routeClosedFrame, toLE_length], rfl, ?_⟩
    intro hlt
    have hpow : (2 : Nat) ^ 64 = 18446744073709551616 := by norm_num
    have hmod : p % 18446744073709551616 = p := Nat.mod_eq_of_lt (hpow ▸ hlt)
    simp [routeClosedFrame, fromLE_toLE, hmod]
  · intro ch bad good h0 hlen
    have hb := onRead_malformed ch bad h0 (Or.inl (by omega))
    exact ⟨hb, by rw [hb]⟩

/-- Witness for C4: removing route 7 emits the ROUTE_CLOSED frame whose
payload decodes back to 7; a 2-byte control frame is dropped silently. -/
theorem C4_witness :
    Event.wireWrite (routeClosedFrame 7)
        ∈ [Event.wireWrite (routeClosedFrame 7)] ∧
    fromLE ((routeClosedFrame 7).payload.drop 1) = 7 ∧
    Channel.OnReadMessage ⟨[], [], [], true⟩ ⟨0, [0, 1]⟩
      = (⟨[], [], [], true⟩, [Event.notReached]) :=
  have h := C4_route_closed_frame_layout_and_min_size
  ⟨(h.1 ⟨[(7, 1)], [], [], true⟩ 7 1 ⟨[], [], [], true⟩
      [Event.wireWrite (routeClosedFrame 7)] (by decide) (by decide) rfl).1,
   (h.1 ⟨[(7, 1)], [], [], true⟩ 7 1 ⟨[], [], [], true⟩
      [Event.wireWrite (routeClosedFrame 7)] (by decide) (by decide)
      rfl).2.2.2.2 (by decide),
   (h.2 ⟨[], [], [], true⟩ ⟨0, [0, 1]⟩ ⟨1, []⟩ rfl (by decide)).1⟩

/-- C5: a RoutedChannel destructs exactly when the transport is down and
the routes table is empty: `RemoveRoute` schedules a deferred
`DeleteSoon` if and only if the transport is already down and the erase
left `routes_` empty (and never deletes inline); the transport-error path
deletes inline exactly when no route is bound; no other operation ever
destroys the channel. -/
theorem C5_destruction_iff_transport_down_and_routes_empty :
    (∀ (ch : Channel) (p d : Nat) (ch2 : Channel) (evs : List Event),
      Channel.RemoveRoute ch p d = some (ch2, evs) →
      ch2.channel_alive = ch.channel_alive ∧
      (Event.deleteSoon ∈ evs ↔
        (ch.channel_alive = false ∧ ch2.routes = [])) ∧
      Event.deleteInline ∉ evs) ∧
    (∀ (ch : Channel) (e : ChError),
      (Event.deleteInline ∈ (Channel.OnError ch e).2 ↔ ch.routes = []) ∧
      Event.deleteSoon ∉ (Channel.OnError ch e).2 ∧
      (Channel.OnError ch e).1.channel_alive = false) ∧
    (∀ (ch : Channel) (p d : Nat) (ch2 : Channel) (evs : List Event),
      Channel.AddRoute ch p d = some (ch2, evs) →
      Event.deleteSoon ∉ evs ∧ Event.deleteInline ∉ evs) ∧
    (∀ (ch : Channel) (m : Frame),
      Event.deleteSoon ∉ (Channel.OnReadMessage ch m).2 ∧
      Event.deleteInline ∉ (Channel.OnReadMessage ch m).2) := by
  refine ⟨?_, ?_, ?_, ?_⟩
  · intro ch p d ch2 evs h
    obtain ⟨hf, hch2, hevs⟩ := RemoveRoute_inv ch p d ch2 evs h
    subst hevs hch2
    refine ⟨rfl, ?_, ?_⟩
    · cases ha : ch.channel_alive <;>
        by_cases hc : p ∈ ch.close_routes <;>
          by_cases he : eraseRoute ch.routes p = [] <;>
            simp [ha, hc, he]
    · cases ha : ch.channel_alive <;>
        by_cases hc : p ∈ ch.close_routes <;>
          by_cases he : eraseRoute ch.routes p = [] <;>
            simp [ha, hc, he]
  · intro ch e
    by_cases hr : ch.routes = [] <;> simp [Channel.OnError, hr]
  · intro ch p d ch2 evs h
    by_cases hp : p = 0
    · simp [Channel.AddRoute, kInternalRoutingId, hp] at h
    · cases hbf : findRoute ch.routes p with
      | some v => simp [Channel.AddRoute, kInternalRoutingId, hp, hbf] at h
      | none =>
        rw [AddRoute_some ch p d hp hbf] at h
        simp only [Option.some.injEq, Prod.mk.injEq] at h
        obtain ⟨h1, h2⟩ := h
        subst h2
        by_cases hc : p ∈ ch.close_routes <;> simp [hc]
  · intro ch m
    by_cases h0 : m.route_id = kInternalRoutingId
    · by_cases hl : m.payload.length = 9
      · by_cases hh : m.payload.head? = some ROUTE_CLOSED
        · by_cases hd : fromLE m.payload.tail ∈ ch.close_routes
          · simp [Channel.OnReadMessage, h0, hl, hh, hd]
          · cases hfr : findRoute ch.routes (fromLE m.payload.tail) <;>
              simp [Channel.OnReadMessage, h0, hl, hh, hd, hfr]
        · simp [Channel.OnReadMessage, h0, hl, hh]
      · simp [Channel.OnReadMessage, h0, hl]
    · cases hfr : findRoute ch.routes m.route_id <;>
        simp [Channel.OnReadMessage, h0, hfr]

/-- Witness for C5: removing the last route of a dead-transport channel
schedules `DeleteSoon`; a transport error with no bound routes deletes
inline. -/
theorem C5_witness :
    Event.deleteSoon ∈ [Event.deleteSoon] ∧
    Event.deleteInline ∈ (Channel.OnError ⟨[], [], [], true⟩
        ChError.readBroken).2 :=
  have h := C5_destruction_iff_transport_down_and_routes_empty
  ⟨(h.1 ⟨[(7, 1)], [], [], false⟩ 7 1 ⟨[], [], [], false⟩ [Event.deleteSoon]
      (by decide)).2.1.mpr ⟨rfl, rfl⟩,
   (h.2.1 ⟨[], [], [], true⟩ ChError.readBroken).1.mpr rfl⟩

/-- C6: on a transport error the channel first shuts the transport down,
then forwards the error to every bound dispatcher exactly once; if the
routes table is empty at that instant it destructs inline, otherwise no
destruction happens in this call (it is deferred to the last
RemoveRoute). -/
theorem C6_transport_error_shutdown_then_error_fanout :
    ∀ (ch : Channel) (e : ChError),
      (Channel.OnError ch e).1.channel_alive = false ∧
      (Channel.OnError ch e).2.head? = some Event.shutdownTransport ∧
      (ch.routes = [] →
        (Channel.OnError ch e).2
          = [Event.shutdownTransport, Event.deleteInline]) ∧
      (ch.routes ≠ [] →
        (Channel.OnError ch e).2
          = Event.shutdownTransport ::
              ch.routes.map (fun r => Event.dispatchError r.2 e) ∧
        Event.deleteInline ∉ (Channel.OnError ch e).2) ∧
      ((ch.routes.map Prod.snd).Nodup →
        ∀ d0 ∈ ch.routes.map Prod.snd,
          (Channel.OnError ch e).2.count (Event.dispatchError d0 e) = 1) := by
  intro ch e
  refine ⟨?_, ?_, ?_, ?_, ?_⟩
  · by_cases hr : ch.routes = [] <;> simp [Channel.OnError, hr]
  · by_cases hr : ch.routes = [] <;> simp [Channel.OnError, hr]
  · intro hr
    simp [Channel.OnError, hr]
  · intro hr
    refine ⟨by simp [Channel.OnError, hr], ?_⟩
    simp [Channel.OnError, hr, List.mem_map]
  · intro hnd d0 hd0
    by_cases hr : ch.routes = []
    · rw [hr] at hd0
      simp at hd0
    · have hmap : (Channel.OnError ch e).2
          = Event.shutdownTransport ::
              (ch.routes.map Prod.snd).map
                (fun x => Event.dispatchError x e) := by
        simp [Channel.OnError, hr, List.map_map, Function.comp]
      have hinj : Function.Injective
          (fun x : Nat => Event.dispatchError x e) := by
        intro a b hab
        simpa using hab
      rw [hmap]
      simp only [List.count_cons]
      rw [List.count_map_of_injective _ _ hinj]
      simp [List.count_eq_one_of_mem hnd hd0]

/-- Witness for C6: routes {3, 5, 7} bound to dispatchers 1, 2, 4. -/
theorem C6_witness :
    (Channel.OnError ⟨[(3, 1), (5, 2), (7, 4)], [], [], true⟩
        ChError.writeError).2
      = [Event.shutdownTransport,
         Event.dispatchError 1 ChError.writeError,
         Event.dispatchError 2 ChError.writeError,
         Event.dispatchError 4 ChError.writeError] ∧
    (Channel.OnError ⟨[(3, 1), (5, 2), (7, 4)], [], [], true⟩
        ChError.writeError).2.count
        (Event.dispatchError 2 ChError.writeError) = 1 :=
  ⟨((C6_transport_error_shutdown_then_error_fanout
      ⟨[(3, 1), (5, 2), (7, 4)], [], [], true⟩
      ChError.writeError).2.2.2.1 (by decide)).1,
   (C6_transport_error_shutdown_then_error_fanout
      ⟨[(3, 1), (5, 2), (7, 4)], [], [], true⟩
      ChError.writeError).2.2.2.2 (by decide) 2 (by decide)⟩

end edk

namespace mojoSys

theorem port_setPort (mp : MessagePipe) (i : Nat) (p : Port) :
    (mp.setPort i p).port i = p := by
  by_cases hi : i = 0 <;> simp [MessagePipe.port, MessagePipe.setPort, hi]

theorem port_setPort_peer (mp : MessagePipe) (i : Nat) (p : Port) :
    (mp.setPort (peerOf i) p).port i = mp.port i := by
  by_cases hi : i = 0 <;>
    simp [MessagePipe.port, MessagePipe.setPort, peerOf, hi]

theorem port_peer_setPort (mp : MessagePipe) (i : Nat) (p : Port) :
    (mp.setPort i p).port (peerOf i) = mp.port (peerOf i) := by
  by_cases hi : i = 0 <;>
    simp [MessagePipe.port, MessagePipe.setPort, peerOf, hi]

/-! ### Replays of the MessagePipe unit-test scenarios, validating the
spec-modelled endpoint against the tests that are among the sources. -/

/-- MessagePipeTest.Basic, first steps: empty reads, one write/read. -/
theorem replay_test_basic :
    (MessagePipe.init.ReadMessage 0 false (some 8) false none false).result
        = MojoResult.notFound ∧
    (MessagePipe.init.WriteMessage 1 (some [1, 2, 3, 4]) 4 none 0).1
        = MojoResult.ok ∧
    (((MessagePipe.init.WriteMessage 1 (some [1, 2, 3, 4]) 4 none 0).2
        ).ReadMessage 0 false (some 8) false none false).result
        = MojoResult.ok ∧
    (((MessagePipe.init.WriteMessage 1 (some [1, 2, 3, 4]) 4 none 0).2
        ).ReadMessage 0 false (some 8) false none false).delivered
        = some ⟨[1, 2, 3, 4]⟩ ∧
    ((((MessagePipe.init.WriteMessage 1 (some [1, 2, 3, 4]) 4 none 0).2
        ).ReadMessage 0 false (some 8) false none false).pipe.ReadMessage
        0 false (some 8) false none false).result = MojoResult.notFound := by
  decide

/-- MessagePipeTest.Basic, too-small buffer without MAY_DISCARD: size is
reported, message stays queued. -/
theorem replay_test_too_small :
    (((MessagePipe.init.WriteMessage 0 (some [1, 2, 3, 4]) 4 none 0).2
        ).ReadMessage 1 false (some 1) false none false).result
        = MojoResult.resourceExhausted ∧
    (((MessagePipe.init.WriteMessage 0 (some [1, 2, 3, 4]) 4 none 0).2
        ).ReadMessage 1 false (some 1) false none false).buffer_size_out
        = some 4 ∧
    (((MessagePipe.init.WriteMessage 0 (some [1, 2, 3, 4]) 4 none 0).2
        ).ReadMessage 1 false (some 1) false none false).pipe
        = (MessagePipe.init.WriteMessage 0 (some [1, 2, 3, 4]) 4 none 0).2 := by
  decide

/-- MessagePipeTest.DiscardMode: too-small read with MAY_DISCARD reports
the size and discards; the queue is then empty. -/
theorem replay_test_discard :
    (((MessagePipe.init.WriteMessage 1 (some [1, 2, 3, 4]) 4 none 0).2
        ).ReadMessage 0 false (some 1) false none true).result
        = MojoResult.resourceExhausted ∧
    (((MessagePipe.init.WriteMessage 1 (some [1, 2, 3, 4]) 4 none 0).2
        ).ReadMessage 0 false (some 1) false none true).buffer_size_out
        = some 4 ∧
    ((((MessagePipe.init.WriteMessage 1 (some [1, 2, 3, 4]) 4 none 0).2
        ).ReadMessage 0 false (some 1) false none true).pipe.ReadMessage
        0 false (some 8) false none true).result = MojoResult.notFound := by
  decide

/-- MessagePipeTest.InvalidParams: null buffer with nonzero size, huge
payload, null handles with nonzero count. -/
theorem replay_test_invalid_params :
    (MessagePipe.init.WriteMessage 0 none 1 none 0).1
        = MojoResult.invalidArgument ∧
    (MessagePipe.init.WriteMessage 0 (some [1]) 4294967295 none 0).1
        = MojoResult.resourceExhausted ∧
    (MessagePipe.init.WriteMessage 0 (some [1]) 1 none 1).1
        = MojoResult.invalidArgument ∧
    (MessagePipe.init.WriteMessage 0 (some [1]) 1 (some [3]) 1073741823).1
        = MojoResult.resourceExhausted ∧
    (MessagePipe.init.ReadMessage 0 true (some 1) false none false).result
        = MojoResult.invalidArgument ∧
    (MessagePipe.init.ReadMessage 0 false (some 1) true (some 1) false).result
        = MojoResult.invalidArgument := by
  decide

/-- MessagePipeTest.Basic, closed-peer steps: a write to a closed peer
fails, the earlier message remains readable. -/
theorem replay_test_closed_peer :
    ((((MessagePipe.init.WriteMessage 0 (some [7, 7, 7, 7]) 4 none 0).2
        ).Close 0).WriteMessage 1 (some [1]) 1 none 0).1
        = MojoResult.failedPrecondition ∧
    ((((MessagePipe.init.WriteMessage 0 (some [7, 7, 7, 7]) 4 none 0).2
        ).Close 0).ReadMessage 1 false (some 8) false none false).result
        = MojoResult.ok ∧
    ((((MessagePipe.init.WriteMessage 0 (some [7, 7, 7, 7]) 4 none 0).2
        ).Close 0).ReadMessage 1 false (some 8) false none false).delivered
        = some ⟨[7, 7, 7, 7]⟩ := by
  decide

/-- MessagePipeTest.BasicWaiting replayed on the model. -/
theorem replay_test_basic_waiting :
    (MessagePipe.init.AddWaiter 0 false true 0).1
        = MojoResult.alreadyExists ∧
    (MessagePipe.init.AddWaiter 0 true true 0).1
        = MojoResult.alreadyExists ∧
    (MessagePipe.init.AddWaiter 0 true false 1).1 = MojoResult.ok ∧
    (((MessagePipe.init.WriteMessage 0 (some [1, 2, 3, 4]) 4 none 0).2
        ).AddWaiter 1 true false 2).1 = MojoResult.alreadyExists ∧
    ((((MessagePipe.init.WriteMessage 0 (some [1, 2, 3, 4]) 4 none 0).2
        ).Close 0).AddWaiter 1 false true 4).1
        = MojoResult.failedPrecondition ∧
    ((((MessagePipe.init.WriteMessage 0 (some [1, 2, 3, 4]) 4 none 0).2
        ).Close 0).AddWaiter 1 true false 5).1
        = MojoResult.alreadyExists ∧
    (((((MessagePipe.init.WriteMessage 0 (some [1, 2, 3, 4]) 4 none 0).2
        ).Close 0).ReadMessage 1 false (some 4) false none false
        ).pipe.AddWaiter 1 true false 6).1
        = MojoResult.failedPrecondition := by
  decide

/-! ### Claim theorems for the local MessagePipe -/

/-- C7: with a non-empty incoming queue, a read with a buffer smaller
than the head message returns RESOURCE_EXHAUSTED, reporting the head's
size; with MAY_DISCARD the head is discarded, without it the head stays
so an adequate subsequent read delivers it with OK; and the
`buffer_size` out-parameter is written exactly when the result is
RESOURCE_EXHAUSTED or OK. -/
theorem C7_read_too_small_buffer_behaviour :
    (∀ (mp : MessagePipe) (i : Nat) (bn : Bool) (bsz : Nat) (hn : Bool)
       (hc : Option Nat) (disc : Bool) (m : Msg) (rest : List Msg),
      (mp.port i).incoming = m :: rest →
      bsz < m.data.length →
      ¬(bn = true ∧ bsz ≠ 0) →
      ¬(hn = true ∧ hc.getD 0 ≠ 0) →
      ((mp.ReadMessage i bn (some bsz) hn hc disc).result
          = MojoResult.resourceExhausted ∧
       (mp.ReadMessage i bn (some bsz) hn hc disc).buffer_size_out
          = some m.data.length ∧
       (disc = true →
         ((mp.ReadMessage i bn (some bsz) hn hc disc).pipe.port i).incoming
            = rest) ∧
       (disc = false →
         (mp.ReadMessage i bn (some bsz) hn hc disc).pipe = mp))) ∧
    (∀ (mp : MessagePipe) (i : Nat) (bsz2 : Nat) (m : Msg)
       (rest : List Msg),
      (mp.port i).incoming = m :: rest →
      m.data.length ≤ bsz2 →
      ((mp.ReadMessage i false (some bsz2) false none false).result
          = MojoResult.ok ∧
       (mp.ReadMessage i false (some bsz2) false none false).delivered
          = some m ∧
       (mp.ReadMessage i false (some bsz2) false none false).buffer_size_out
          = some m.data.length ∧
       ((mp.ReadMessage i false (some bsz2) false none false).pipe.port
            i).incoming = rest)) ∧
    (∀ (mp : MessagePipe) (i : Nat) (bn : Bool) (bsz : Nat) (hn : Bool)
       (hc : Option Nat) (disc : Bool),
      ((mp.ReadMessage i bn (some bsz) hn hc disc).buffer_size_out.isSome ↔
        ((mp.ReadMessage i bn (some bsz) hn hc disc).result = MojoResult.ok ∨
         (mp.ReadMessage i bn (some bsz) hn hc disc).result
            = MojoResult.resourceExhausted))) := by
  refine ⟨?_, ?_, ?_⟩
  · intro mp i bn bsz hn hc disc m rest hq hlt hv1 hv2
    have hle : ¬(m.data.length ≤ bsz) := by omega
    cases disc <;>
      simp [MessagePipe.ReadMessage, hq, hv1, hv2, hle, port_setPort]
  · intro mp i bsz2 m rest hq hle
    simp [MessagePipe.ReadMessage, hq, hle, port_setPort]
  · intro mp i bn bsz hn hc disc
    by_cases c1 : bn = true ∧ bsz ≠ 0
    · simp [MessagePipe.ReadMessage, c1]
    · by_cases c2 : hn = true ∧ hc.getD 0 ≠ 0
      · simp [MessagePipe.ReadMessage, c1, c2]
      · cases hq : (mp.port i).incoming with
        | nil =>
          cases pc : (mp.port i).peer_closed <;>
            simp [MessagePipe.ReadMessage, c1, c2, hq, pc]
        | cons m rest =>
          by_cases hle : m.data.length ≤ bsz
          · simp [MessagePipe.ReadMessage, c1, c2, hq, hle]
          · cases disc <;>
              simp [MessagePipe.ReadMessage, c1, c2, hq, hle]

/-- Witness for C7: a 4-byte message read with a 1-byte buffer under
MAY_DISCARD. -/
theorem C7_witness :
    (MessagePipe.ReadMessage
        ⟨⟨[⟨[1, 2, 3, 4]⟩], false, false, []⟩, ⟨[], false, false, []⟩⟩
        0 false (some 1) false none true).result
      = MojoResult.resourceExhausted ∧
    (MessagePipe.ReadMessage
        ⟨⟨[⟨[1, 2, 3, 4]⟩], false, false, []⟩, ⟨[], false, false, []⟩⟩
        0 false (some 1) false none true).buffer_size_out = some 4 ∧
    (true = true →
      ((MessagePipe.ReadMessage
          ⟨⟨[⟨[1, 2, 3, 4]⟩], false, false, []⟩, ⟨[], false, false, []⟩⟩
          0 false (some 1) false none true).pipe.port 0).incoming = []) ∧
    (true = false →
      (MessagePipe.ReadMessage
          ⟨⟨[⟨[1, 2, 3, 4]⟩], false, false, []⟩, ⟨[], false, false, []⟩⟩
          0 false (some 1) false none true).pipe
        = ⟨⟨[⟨[1, 2, 3, 4]⟩], false, false, []⟩, ⟨[], false, false, []⟩⟩) :=
  C7_read_too_small_buffer_behaviour.1
    ⟨⟨[⟨[1, 2, 3, 4]⟩], false, false, []⟩, ⟨[], false, false, []⟩⟩
    0 false 1 false none true ⟨[1, 2, 3, 4]⟩ []
    (by decide) (by decide) (by decide) (by decide)

/-- C8: WriteMessage fails FAILED_PRECONDITION when the peer port is
closed (enqueuing nothing), INVALID_ARGUMENT for a null byte buffer with
nonzero length or null handles with nonzero count, RESOURCE_EXHAUSTED for
an implausibly large payload; and a message enqueued before the peer
closed remains readable on the surviving port. -/
theorem C8_write_error_paths :
    (∀ (mp : MessagePipe) (i : Nat) (bytes : Option (List Nat)) (nb : Nat)
       (handles : Option (List Nat)) (nh : Nat),
      (mp.port i).peer_closed = true →
      mp.WriteMessage i bytes nb handles nh
        = (MojoResult.failedPrecondition, mp)) ∧
    (∀ (mp : MessagePipe) (i : Nat) (nb : Nat)
       (handles : Option (List Nat)) (nh : Nat),
      (mp.port i).peer_closed = false → nb ≠ 0 →
      mp.WriteMessage i none nb handles nh
        = (MojoResult.invalidArgument, mp)) ∧
    (∀ (mp : MessagePipe) (i : Nat) (data : List Nat) (nb nh : Nat),
      (mp.port i).peer_closed = false → nb ≤ kMaxMessageNumBytes →
      nh ≠ 0 →
      mp.WriteMessage i (some data) nb none nh
        = (MojoResult.invalidArgument, mp)) ∧
    (∀ (mp : MessagePipe) (i : Nat) (data : List Nat) (nb : Nat),
      (mp.port i).peer_closed = false → nb > kMaxMessageNumBytes →
      mp.WriteMessage i (some data) nb none 0
        = (MojoResult.resourceExhausted, mp)) ∧
    (∀ (mp : MessagePipe) (i : Nat) (data : List Nat),
      (mp.port i).peer_closed = false →
      data.length ≤ kMaxMessageNumBytes →
      (mp.port (peerOf i)).incoming = [] →
      ((mp.WriteMessage i (some data) data.length (some []) 0).1
          = MojoResult.ok ∧
       (((mp.WriteMessage i (some data) data.length (some []) 0).2.Close
            i).ReadMessage (peerOf i) false (some data.length) false none
            false).result = MojoResult.ok ∧
       (((mp.WriteMessage i (some data) data.length (some []) 0).2.Close
            i).ReadMessage (peerOf i) false (some data.length) false none
            false).delivered = some ⟨data⟩)) := by
  refine ⟨?_, ?_, ?_, ?_, ?_⟩
  · intro mp i bytes nb handles nh hpc
    simp [MessagePipe.WriteMessage, hpc]
  · intro mp i nb handles nh hpc hnb
    simp [MessagePipe.WriteMessage, hpc, hnb]
  · intro mp i data nb nh hpc hnb hnh
    have h2 : ¬(nb > kMaxMessageNumBytes) := by omega
    simp [MessagePipe.WriteMessage, hpc, h2, hnh]
  · intro mp i data nb hpc hnb
    simp [MessagePipe.WriteMessage, hpc, hnb]
  · intro mp i data hpc hlen hempty
    have hwr : mp.WriteMessage i (some data) data.length (some []) 0
        = (MojoResult.ok,
           mp.setPort (peerOf i)
             { mp.port (peerOf i) with
                 incoming := (mp.port (peerOf i)).incoming ++ [⟨data⟩] }) := by
      have h2 : ¬(data.length > kMaxMessageNumBytes) := by omega
      simp [MessagePipe.WriteMessage, hpc, h2, List.take_length]
    rw [hwr]
    by_cases hi : i = 0 <;>
      simp [MessagePipe.Close, MessagePipe.ReadMessage, MessagePipe.port,
            MessagePipe.setPort, peerOf, hi, hempty] at hempty ⊢ <;>
        simp [hempty]

/-- Witness for C8: writing after the peer closed, and the
surviving-message scenario, at concrete pipes. -/
theorem C8_witness :
    MessagePipe.WriteMessage
        ⟨⟨[], true, false, []⟩, ⟨[], false, true, []⟩⟩ 0
        (some [1]) 1 none 0
      = (MojoResult.failedPrecondition,
         ⟨⟨[], true, false, []⟩, ⟨[], false, true, []⟩⟩) ∧
    ((MessagePipe.WriteMessage MessagePipe.init 0 (some [9, 9]) 2
        (some []) 0).1 = MojoResult.ok ∧
     (((MessagePipe.WriteMessage MessagePipe.init 0 (some [9, 9]) 2
          (some []) 0).2.Close 0).ReadMessage 1 false (some 2) false none
          false).result = MojoResult.ok ∧
     (((MessagePipe.WriteMessage MessagePipe.init 0 (some [9, 9]) 2
          (some []) 0).2.Close 0).ReadMessage 1 false (some 2) false none
          false).delivered = some ⟨[9, 9]⟩) :=
  ⟨C8_write_error_paths.1
     ⟨⟨[], true, false, []⟩, ⟨[], false, true, []⟩⟩ 0 (some [1]) 1 none 0
     (by decide),
   C8_write_error_paths.2.2.2.2 MessagePipe.init 0 [9, 9]
     (by decide) (by decide) (by decide)⟩

/-- C9: AddWaiter returns ALREADY_EXISTS (never arming the waiter) when
a requested flag is already satisfied — writable while the peer is open,
readable while the queue is non-empty — FAILED_PRECONDITION when no
requested flag can ever be satisfied — peer closed with no queued
message for READABLE, peer closed for WRITABLE — and otherwise OK,
recording the waiter. -/
theorem C9_addWaiter_characterization :
    ∀ (mp : MessagePipe) (i : Nat) (r w : Bool) (ctx : Nat),
      (r = true ∨ w = true) →
      (((w = true ∧ (mp.port i).peer_closed = false) ∨
          (r = true ∧ (mp.port i).incoming ≠ []) →
        mp.AddWaiter i r w ctx = (MojoResult.alreadyExists, mp)) ∧
       ((mp.AddWaiter i r w ctx).1 = MojoResult.failedPrecondition ↔
          ((mp.port i).peer_closed = true ∧
           ¬(r = true ∧ (mp.port i).incoming ≠ []))) ∧
       (¬((w = true ∧ (mp.port i).peer_closed = false) ∨
            (r = true ∧ (mp.port i).incoming ≠ [])) →
        ¬((mp.port i).peer_closed = true ∧
            ¬(r = true ∧ (mp.port i).incoming ≠ [])) →
        mp.AddWaiter i r w ctx
          = (MojoResult.ok,
             mp.setPort i
               { mp.port i with
                   waiters := (mp.port i).waiters ++ [⟨r, w, ctx⟩] }))) := by
  intro mp i r w ctx hflag
  cases r <;> cases w <;>
    cases pc : (mp.port i).peer_closed <;>
      cases hq : (mp.port i).incoming <;>
        simp_all [MessagePipe.AddWaiter]

/-- Witness for C9: a fresh pipe is immediately writable; with the peer
closed and no queued message the waiter is rejected as unsatisfiable. -/
theorem C9_witness :
    MessagePipe.AddWaiter MessagePipe.init 0 false true 0
      = (MojoResult.alreadyExists, MessagePipe.init) ∧
    (MessagePipe.AddWaiter
        ⟨⟨[], false, true, []⟩, ⟨[], true, false, []⟩⟩ 1 true true 4).1
      = MojoResult.failedPrecondition :=
  ⟨(C9_addWaiter_characterization MessagePipe.init 0 false true 0
      (Or.inr rfl)).1 (by decide),
   (C9_addWaiter_characterization
      ⟨⟨[], false, true, []⟩, ⟨[], true, false, []⟩⟩ 1 true true 4
      (Or.inl rfl)).2.1.mpr (by decide)⟩

end mojoSys

end Spec2Proof
